import Mathlib

/-!
Shallow embedding of the SubscMan money-normalization and aggregation engine
(`src/js/calculator.js` and the settings part of `src/js/storage.js`).

JavaScript numbers are modelled as `JSNum`: either `nan` or an exact rational
`num q`.  Arithmetic propagates `nan` exactly as IEEE NaN propagates through
`+`, `*`, `/` in JavaScript.  `Math.round` is ECMAScript rounding: the integer
nearest to the argument, ties toward positive infinity, i.e. `⌊q + 1/2⌋`.
Record fields that the aggregator reads through `x || 0` are modelled as
`JSField`, covering a missing field (`undef`), `null`, `nan` and numbers.
-/

namespace SubscMan

/-- A JavaScript number: NaN or an exact rational value. -/
inductive JSNum where
  | nan : JSNum
  | num (q : ℚ) : JSNum
deriving DecidableEq

namespace JSNum

/-- JavaScript `+` on numbers: NaN propagates. -/
def add : JSNum → JSNum → JSNum
  | num a, num b => num (a + b)
  | _, _ => nan

/-- JavaScript `*` on numbers: NaN propagates. -/
def mul : JSNum → JSNum → JSNum
  | num a, num b => num (a * b)
  | _, _ => nan

/-- JavaScript `/` on numbers, as used by the source (the only divisor that
occurs is the literal `12`, so the division-by-zero branch is unreachable;
it is mapped to `nan`). -/
def div : JSNum → JSNum → JSNum
  | num a, num b => if b = 0 then nan else num (a / b)
  | _, _ => nan

end JSNum

/-- ECMAScript `Math.round`: nearest integer, ties toward +∞; NaN propagates. -/
def jsRound : JSNum → JSNum
  | JSNum.nan => JSNum.nan
  | JSNum.num q => JSNum.num (⌊q + 1/2⌋ : ℤ)

/-- Round half away from zero, the rounding rule named by the specification. -/
def roundHalfAwayFromZero (q : ℚ) : ℤ :=
  if 0 ≤ q then ⌊q + 1/2⌋ else ⌈q - 1/2⌉

/-- Decimal digit test, as in the grammar of a JavaScript numeric literal. -/
def isDigit (c : Char) : Bool :=
  '0' ≤ c && c ≤ '9'

/-- Value of a digit string read left to right. -/
def digitsVal (l : List Char) : ℕ :=
  l.foldl (fun a c => a * 10 + (c.toNat - 48)) 0

/-- The components of a successfully parsed decimal literal: sign, integer
part, fraction digits value, number of fraction digits, exponent sign and
exponent value.  All components are discrete so that parsing a concrete
string evaluates by `decide`/`rfl`. -/
structure ParsedDecimal where
  neg : Bool
  ipVal : ℕ
  fpVal : ℕ
  fpLen : ℕ
  expNeg : Bool
  expVal : ℕ
deriving DecidableEq

/-- Exponent part of `parseFloat`: an optional `e`/`E`, optional sign and
digits; anything unparseable leaves the exponent at zero, matching the
longest-valid-prefix rule of ECMAScript `parseFloat`. -/
def parseExpPart (l : List Char) : Bool × ℕ :=
  match l with
  | 'e' :: rest =>
      (match rest with
       | '-' :: r => if (r.takeWhile isDigit).isEmpty then (false, 0)
                     else (true, digitsVal (r.takeWhile isDigit))
       | '+' :: r => if (r.takeWhile isDigit).isEmpty then (false, 0)
                     else (false, digitsVal (r.takeWhile isDigit))
       | r => if (r.takeWhile isDigit).isEmpty then (false, 0)
              else (false, digitsVal (r.takeWhile isDigit)))
  | 'E' :: rest =>
      (match rest with
       | '-' :: r => if (r.takeWhile isDigit).isEmpty then (false, 0)
                     else (true, digitsVal (r.takeWhile isDigit))
       | '+' :: r => if (r.takeWhile isDigit).isEmpty then (false, 0)
                     else (false, digitsVal (r.takeWhile isDigit))
       | r => if (r.takeWhile isDigit).isEmpty then (false, 0)
              else (false, digitsVal (r.takeWhile isDigit)))
  | _ => (false, 0)

/-- Unsigned part of `parseFloat`: longest prefix `digits [. digits] [exp]`;
`none` (NaN) when no digit is found on either side of the dot. -/
def parseUnsigned (l : List Char) (neg : Bool) : Option ParsedDecimal :=
  let ip := l.takeWhile isDigit
  let r1 := l.dropWhile isDigit
  let fp := match r1 with
    | '.' :: rest => rest.takeWhile isDigit
    | _ => []
  let r2 := match r1 with
    | '.' :: rest => rest.dropWhile isDigit
    | _ => r1
  if ip.isEmpty && fp.isEmpty then none
  else
    let e := parseExpPart r2
    some ⟨neg, digitsVal ip, digitsVal fp, fp.length, e.1, e.2⟩

/-- Discrete part of ECMAScript `parseFloat`: skip leading spaces, optional
sign, then the longest decimal-literal prefix. -/
def parseDecimal (s : String) : Option ParsedDecimal :=
  let l := s.data.dropWhile (fun c => c = ' ')
  match l with
  | '-' :: rest => parseUnsigned rest true
  | '+' :: rest => parseUnsigned rest false
  | _ => parseUnsigned l false

/-- The rational value denoted by a parsed decimal literal. -/
def ParsedDecimal.toRat (p : ParsedDecimal) : ℚ :=
  let m : ℚ := (p.ipVal : ℚ) + (p.fpVal : ℚ) / 10 ^ p.fpLen
  let v : ℚ := if p.expNeg then m / 10 ^ p.expVal else m * 10 ^ p.expVal
  if p.neg then -v else v

/-- ECMAScript `parseFloat`: NaN when no decimal literal can be read,
otherwise the value of the longest decimal-literal prefix. -/
def parseFloat (s : String) : JSNum :=
  match parseDecimal s with
  | none => JSNum.nan
  | some p => JSNum.num p.toRat

/-- `convertToJPY` from `src/js/calculator.js` (lines 14–22). -/
def convertToJPY (amount : JSNum) (currency : String) (exchangeRate : JSNum) : JSNum :=
  if currency = "JPY" then amount
  else if currency = "USD" then amount.mul exchangeRate
  else amount

/-- `calculateMonthlyYearly` from `src/js/calculator.js` (lines 30–54):
switch on the billing-cycle string, then `Math.round` both components. -/
def calculateMonthlyYearly (originalJPY : JSNum) (billingCycle : String) : JSNum × JSNum :=
  let p :=
    if billingCycle = "月払い" then (originalJPY, originalJPY.mul (JSNum.num 12))
    else if billingCycle = "年払い" then (originalJPY.div (JSNum.num 12), originalJPY)
    else (originalJPY, originalJPY.mul (JSNum.num 12))
  (jsRound p.1, jsRound p.2)

/-- The raw input record handed to `calculateAmounts`: the amount as typed
into the form (a string, fed to `parseFloat`), the currency code and the
billing-cycle label. -/
structure AmountInput where
  amount_original : String
  currency : String
  billing_cycle : String

/-- `calculateAmounts` from `src/js/calculator.js` (lines 62–80). -/
def calculateAmounts (data : AmountInput) (exchangeRate : JSNum) : JSNum × JSNum :=
  let originalJPY := convertToJPY (parseFloat data.amount_original) data.currency exchangeRate
  calculateMonthlyYearly originalJPY data.billing_cycle

/-- A JavaScript value sitting in a numeric record field: the field may be
absent (`undef`), `null`, NaN, or an actual number. -/
inductive JSField where
  | undef : JSField
  | null : JSField
  | nan : JSField
  | num (q : ℚ) : JSField
deriving DecidableEq

/-- JavaScript truthiness of a `JSField`: `undefined`, `null`, NaN and `0`
are falsy, every other number is truthy. -/
def JSField.truthy : JSField → Bool
  | JSField.num q => q ≠ 0
  | _ => false

/-- The JavaScript expression `x || 0` over a numeric field: the field itself
when truthy, the number `0` otherwise.  (When `x` is the number `0` both
branches denote `0`, so the truthy branch is collapsed into `num q`.) -/
def jsOrZero : JSField → JSNum
  | JSField.num q => JSNum.num q
  | _ => JSNum.num 0

/-- One stored subscription record, with the field shape built by
`addSubscription` in `src/js/storage.js` (lines 127–154). -/
structure Subscription where
  id : String
  service_name : String
  amount_original : JSField
  currency : String
  amount_jpy_monthly : JSField
  amount_jpy_yearly : JSField
  billing_cycle : String
  category : Option String
  start_date : Option String
  next_billing_date : Option String
  memo : String
  is_active : Bool
  created_at : String
  updated_at : String
deriving DecidableEq

/-- The JavaScript expression `sub.category || 'その他'`: the category string
when present and non-empty, the default label otherwise. -/
def categoryOrDefault (c : Option String) : String :=
  match c with
  | none => "その他"
  | some s => if s = "" then "その他" else s

/-- `getTotalMonthly` from `src/js/calculator.js` (lines 87–91):
`reduce((sum, sub) => sum + (sub.amount_jpy_monthly || 0), 0)`. -/
def getTotalMonthly (subscriptions : List Subscription) : JSNum :=
  subscriptions.foldl (fun sum sub => sum.add (jsOrZero sub.amount_jpy_monthly)) (JSNum.num 0)

/-- `getTotalYearly` from `src/js/calculator.js` (lines 98–102). -/
def getTotalYearly (subscriptions : List Subscription) : JSNum :=
  subscriptions.foldl (fun sum sub => sum.add (jsOrZero sub.amount_jpy_yearly)) (JSNum.num 0)

/-- JavaScript falsiness of a number: `0` and NaN are falsy. -/
def JSNum.falsy : JSNum → Bool
  | JSNum.nan => true
  | JSNum.num q => q = 0

/-- One `forEach` step of `getCategoryBreakdown`: look the category up in the
insertion-ordered object; if absent, create it as `0` and add `v`; if present,
reset a falsy stored value to `0` (the `if (!breakdown[category])` guard) and
add `v` in place. -/
def bumpCategory : List (String × JSNum) → String → JSNum → List (String × JSNum)
  | [], c, v => [(c, (JSNum.num 0).add v)]
  | (k, x) :: rest, c, v =>
      if k = c then (k, (if x.falsy then JSNum.num 0 else x).add v) :: rest
      else (k, x) :: bumpCategory rest c v

/-- `getCategoryBreakdown` from `src/js/calculator.js` (lines 109–121); the
JavaScript object is modelled as an insertion-ordered association list. -/
def getCategoryBreakdown (subscriptions : List Subscription) : List (String × JSNum) :=
  subscriptions.foldl
    (fun breakdown sub =>
      bumpCategory breakdown (categoryOrDefault sub.category) (jsOrZero sub.amount_jpy_monthly))
    []

/-- The settings singleton written by `src/js/storage.js`: the USD→JPY rate
and its update timestamp (plus the fixed local id). -/
structure Settings where
  id : String
  usd_to_jpy_rate : JSNum
  last_updated : String
deriving DecidableEq

/-- The local persisted state: the two storage keys the module owns, plus the
API key slot. -/
structure LocalStore where
  subscriptions : List Subscription
  settings : Settings
  api_key : Option String
deriving DecidableEq

/-- `updateExchangeRate` from `src/js/storage.js` (lines 282–300): read the
settings, overwrite `usd_to_jpy_rate` with `parseFloat(rate)` and
`last_updated` with the current time, and persist the settings key; the
subscriptions key is never touched. -/
def updateExchangeRate (st : LocalStore) (rate : String) (now : String) : LocalStore :=
  { st with
    settings :=
      { st.settings with usd_to_jpy_rate := parseFloat rate, last_updated := now } }

/-- Summing the values of a breakdown object, the way a consumer of
`getCategoryBreakdown` would total it in JavaScript. -/
def sumBreakdownVals (b : List (String × JSNum)) : JSNum :=
  b.foldl (fun sum p => sum.add p.2) (JSNum.num 0)

/-- Proof-level abbreviation: the rational a numeric field contributes after
the `x || 0` guard. -/
def fieldVal : JSField → ℚ
  | JSField.num q => q
  | _ => 0

/-- Proof-level mirror of `getTotalMonthly` in ℚ. -/
def totalMonthlyQ (subscriptions : List Subscription) : ℚ :=
  (subscriptions.map (fun s => fieldVal s.amount_jpy_monthly)).sum

/-- Proof-level mirror of `getTotalYearly` in ℚ. -/
def totalYearlyQ (subscriptions : List Subscription) : ℚ :=
  (subscriptions.map (fun s => fieldVal s.amount_jpy_yearly)).sum

/-- Proof-level mirror of `bumpCategory` in ℚ. -/
def bumpCategoryQ : List (String × ℚ) → String → ℚ → List (String × ℚ)
  | [], c, v => [(c, v)]
  | (k, x) :: rest, c, v =>
      if k = c then (k, x + v) :: rest
      else (k, x) :: bumpCategoryQ rest c v

/-- Proof-level mirror of `getCategoryBreakdown` in ℚ. -/
def breakdownQ (subscriptions : List Subscription) : List (String × ℚ) :=
  subscriptions.foldl
    (fun b sub => bumpCategoryQ b (categoryOrDefault sub.category) (fieldVal sub.amount_jpy_monthly))
    []

/-- Injecting a ℚ-valued breakdown entry back into the JavaScript model. -/
def numPair (p : String × ℚ) : String × JSNum :=
  (p.1, JSNum.num p.2)

/-- Sum of the values of a ℚ-valued breakdown. -/
def sumValsQ (b : List (String × ℚ)) : ℚ :=
  (b.map Prod.snd).sum

/-- A record whose cached amounts are NaN, for concrete instantiations. -/
def sampleNaNRecord : Subscription :=
  ⟨"s1", "BrokenService", JSField.num 10, "JPY", JSField.nan, JSField.nan,
    "月払い", some "AI", none, none, "", true, "t0", "t0"⟩

/-- A well-formed cached record, for concrete instantiations. -/
def sampleRecord : Subscription :=
  ⟨"s2", "ChatGPT Plus", JSField.num 20, "USD", JSField.num 3000, JSField.num 36000,
    "月払い", some "AI", none, none, "", true, "t0", "t0"⟩

end SubscMan

namespace SubscMan

/-! ### Shared lemmas -/

/-- `parseFloat "20"` evaluates to the number 20. -/
theorem parseFloat_twenty : parseFloat "20" = JSNum.num 20 := by
  rw [parseFloat, show parseDecimal "20" = some ⟨false, 20, 0, 0, false, 0⟩ from by decide]
  norm_num [ParsedDecimal.toRat]

/-- `parseFloat "12984"` evaluates to the number 12984. -/
theorem parseFloat_yearly_amount : parseFloat "12984" = JSNum.num 12984 := by
  rw [parseFloat, show parseDecimal "12984" = some ⟨false, 12984, 0, 0, false, 0⟩ from by decide]
  norm_num [ParsedDecimal.toRat]

/-- `parseFloat "-5"` evaluates to the number −5. -/
theorem parseFloat_neg_five : parseFloat "-5" = JSNum.num (-5) := by
  rw [parseFloat, show parseDecimal "-5" = some ⟨true, 5, 0, 0, false, 0⟩ from by decide]
  norm_num [ParsedDecimal.toRat]

/-- `parseFloat "abc"` is NaN. -/
theorem parseFloat_abc : parseFloat "abc" = JSNum.nan := by
  rw [parseFloat, show parseDecimal "abc" = none from by decide]

/-- On nonnegative arguments, ECMAScript rounding (ties toward +∞) agrees
with round half away from zero. -/
theorem roundHalfAwayFromZero_of_nonneg (q : ℚ) (h : 0 ≤ q) :
    roundHalfAwayFromZero q = ⌊q + 1/2⌋ := by
  simp [roundHalfAwayFromZero, h]

/-- Rounding an integer-valued rational is the identity. -/
theorem floor_natCast_add_half (k : ℕ) : ⌊(k : ℚ) + 1/2⌋ = (k : ℤ) := by
  rw [show ((k : ℚ) + 1/2) = 1/2 + ((k : ℤ) : ℚ) by push_cast; ring, Int.floor_add_int]
  norm_num

/-- `x || 0` always denotes the rational `fieldVal x`. -/
theorem jsOrZero_eq (x : JSField) : jsOrZero x = JSNum.num (fieldVal x) := by
  cases x <;> rfl

/-- A falsy numeric field contributes the rational 0. -/
theorem fieldVal_of_falsy (x : JSField) (h : x.truthy = false) : fieldVal x = 0 := by
  cases x with
  | num q =>
      simp only [JSField.truthy, decide_eq_false_iff_not, ne_eq, not_not] at h
      simpa [fieldVal] using h
  | undef => rfl
  | null => rfl
  | nan => rfl

/-- Folding NaN-propagating addition over tagged rationals stays a number and
computes the rational sum. -/
theorem foldl_add_num {α : Type} (l : List α) (g : α → ℚ) (a : ℚ) :
    l.foldl (fun s x => s.add (JSNum.num (g x))) (JSNum.num a)
      = JSNum.num (a + (l.map g).sum) := by
  induction l generalizing a with
  | nil => simp
  | cons hd tl ih =>
      rw [List.foldl_cons,
        show (JSNum.num a).add (JSNum.num (g hd)) = JSNum.num (a + g hd) from rfl, ih,
        List.map_cons, List.sum_cons, JSNum.num.injEq]
      ring

/-- `getTotalMonthly` computes the ℚ-level total, tagged as a number. -/
theorem getTotalMonthly_eq (subs : List Subscription) :
    getTotalMonthly subs = JSNum.num (totalMonthlyQ subs) := by
  unfold getTotalMonthly totalMonthlyQ
  simp only [jsOrZero_eq]
  simpa using foldl_add_num subs (fun s => fieldVal s.amount_jpy_monthly) 0

/-- `getTotalYearly` computes the ℚ-level total, tagged as a number. -/
theorem getTotalYearly_eq (subs : List Subscription) :
    getTotalYearly subs = JSNum.num (totalYearlyQ subs) := by
  unfold getTotalYearly totalYearlyQ
  simp only [jsOrZero_eq]
  simpa using foldl_add_num subs (fun s => fieldVal s.amount_jpy_yearly) 0

/-- `bumpCategory` on a number-valued object with a numeric increment mirrors
the ℚ-level `bumpCategoryQ`. -/
theorem bumpCategory_map (b : List (String × ℚ)) (c : String) (v : ℚ) :
    bumpCategory (b.map numPair) c (JSNum.num v) = (bumpCategoryQ b c v).map numPair := by
  induction b with
  | nil => simp [bumpCategory, bumpCategoryQ, numPair, JSNum.add]
  | cons hd tl ih =>
      obtain ⟨k, x⟩ := hd
      by_cases hk : k = c
      · by_cases hx : x = 0 <;>
          simp [bumpCategory, bumpCategoryQ, numPair, JSNum.add, JSNum.falsy, hk, hx]
      · simp [bumpCategory, bumpCategoryQ, numPair, hk, ih]

/-- Folding `bumpCategory` from any number-valued object mirrors folding the
ℚ-level `bumpCategoryQ` from its untagged form. -/
theorem breakdown_foldl_map (subs : List Subscription) (b : List (String × ℚ)) :
    subs.foldl
        (fun breakdown sub =>
          bumpCategory breakdown (categoryOrDefault sub.category) (jsOrZero sub.amount_jpy_monthly))
        (b.map numPair)
      = (subs.foldl
          (fun b sub =>
            bumpCategoryQ b (categoryOrDefault sub.category) (fieldVal sub.amount_jpy_monthly))
          b).map numPair := by
  induction subs generalizing b with
  | nil => simp
  | cons hd tl ih =>
      rw [List.foldl_cons, List.foldl_cons, jsOrZero_eq, bumpCategory_map]
      exact ih _

/-- `getCategoryBreakdown` is the ℚ-level breakdown with every value tagged
as a number. -/
theorem getCategoryBreakdown_eq (subs : List Subscription) :
    getCategoryBreakdown subs = (breakdownQ subs).map numPair := by
  unfold getCategoryBreakdown breakdownQ
  simpa using breakdown_foldl_map subs []

/-- One bump adds its increment to the total of a ℚ-level breakdown. -/
theorem sumValsQ_bump (b : List (String × ℚ)) (c : String) (v : ℚ) :
    sumValsQ (bumpCategoryQ b c v) = sumValsQ b + v := by
  induction b with
  | nil => simp [bumpCategoryQ, sumValsQ]
  | cons hd tl ih =>
      obtain ⟨k, x⟩ := hd
      by_cases hk : k = c
      · simp [bumpCategoryQ, sumValsQ, hk]
        ring
      · simp only [bumpCategoryQ, hk, if_false, sumValsQ, List.map_cons, List.sum_cons] at *
        rw [ih]
        ring

/-- Folding the breakdown over records adds the monthly total to any starting
breakdown's value sum. -/
theorem breakdownQ_total (subs : List Subscription) (b : List (String × ℚ)) :
    sumValsQ (subs.foldl
        (fun b sub =>
          bumpCategoryQ b (categoryOrDefault sub.category) (fieldVal sub.amount_jpy_monthly)) b)
      = sumValsQ b + totalMonthlyQ subs := by
  induction subs generalizing b with
  | nil => simp [totalMonthlyQ]
  | cons hd tl ih =>
      simp only [List.foldl_cons, totalMonthlyQ, List.map_cons, List.sum_cons]
      rw [ih, sumValsQ_bump]
      ring_nf
      simp [totalMonthlyQ, add_comm, add_assoc, add_left_comm]

/-- Totalling a number-valued breakdown computes the ℚ-level value sum. -/
theorem sumBreakdownVals_map (b : List (String × ℚ)) :
    sumBreakdownVals (b.map numPair) = JSNum.num (sumValsQ b) := by
  unfold sumBreakdownVals sumValsQ
  rw [List.foldl_map]
  simpa [numPair] using foldl_add_num b (fun p => p.2) 0

/-! ### Claim theorems -/

/-- Claim C3: `convertToJPY` returns the amount unchanged for JPY, returns
exactly `amount * rate` for USD, and silently passes any other currency
through unchanged, for every positive amount and positive rate. -/
theorem claim_C3 (amount rate : ℚ) (h1 : 0 < amount) (h2 : 0 < rate)
    (currency : String) (hc1 : currency ≠ "JPY") (hc2 : currency ≠ "USD") :
    convertToJPY (JSNum.num amount) "JPY" (JSNum.num rate) = JSNum.num amount ∧
    convertToJPY (JSNum.num amount) "USD" (JSNum.num rate) = JSNum.num (amount * rate) ∧
    convertToJPY (JSNum.num amount) currency (JSNum.num rate) = JSNum.num amount := by
  refine ⟨by simp [convertToJPY], by simp [convertToJPY, JSNum.mul], ?_⟩
  simp [convertToJPY, hc1, hc2]

/-- Witness for claim C3 at amount 5, rate 150, currency `"EUR"`. -/
theorem claim_C3_witness :
    (0 < (5 : ℚ)) ∧ (0 < (150 : ℚ)) ∧ ("EUR" : String) ≠ "JPY" ∧ ("EUR" : String) ≠ "USD" ∧
      (convertToJPY (JSNum.num 5) "JPY" (JSNum.num 150) = JSNum.num 5 ∧
       convertToJPY (JSNum.num 5) "USD" (JSNum.num 150) = JSNum.num (5 * 150) ∧
       convertToJPY (JSNum.num 5) "EUR" (JSNum.num 150) = JSNum.num 5) :=
  ⟨by norm_num, by norm_num, by decide, by decide,
    claim_C3 5 150 (by norm_num) (by norm_num) "EUR" (by decide) (by decide)⟩

/-- Claim C9: the empty record list gives total monthly 0, total yearly 0 and
an empty breakdown, with no error. -/
theorem claim_C9 :
    getTotalMonthly [] = JSNum.num 0 ∧ getTotalYearly [] = JSNum.num 0 ∧
      getCategoryBreakdown [] = [] :=
  ⟨rfl, rfl, rfl⟩

/-- Claim C6: summing the per-category values of `getCategoryBreakdown`
across all returned categories equals `getTotalMonthly`, for every record
list. -/
theorem claim_C6 (subs : List Subscription) :
    sumBreakdownVals (getCategoryBreakdown subs) = getTotalMonthly subs := by
  rw [getCategoryBreakdown_eq, sumBreakdownVals_map, getTotalMonthly_eq, JSNum.num.injEq]
  unfold breakdownQ
  simpa [sumValsQ] using breakdownQ_total subs []

/-- Claim C7: `updateExchangeRate` rewrites only the settings singleton (the
rate from `parseFloat` and the timestamp); the stored subscription list — in
particular every record's cached `amount_jpy_monthly`/`amount_jpy_yearly` —
and the API-key slot are untouched. -/
theorem claim_C7 (st : LocalStore) (rate now : String) :
    (updateExchangeRate st rate now).subscriptions = st.subscriptions ∧
    (updateExchangeRate st rate now).api_key = st.api_key ∧
    (updateExchangeRate st rate now).settings.usd_to_jpy_rate = parseFloat rate ∧
    (updateExchangeRate st rate now).settings.last_updated = now ∧
    (updateExchangeRate st rate now).settings.id = st.settings.id ∧
    ((updateExchangeRate st rate now).subscriptions.map
        (fun s => (s.amount_jpy_monthly, s.amount_jpy_yearly)))
      = st.subscriptions.map (fun s => (s.amount_jpy_monthly, s.amount_jpy_yearly)) :=
  ⟨rfl, rfl, rfl, rfl, rfl, rfl⟩

/-- Claim C8: the two concrete scenarios: 20 USD monthly at rate 150 gives
3000/36000, and 12984 JPY yearly at rate 150 gives 1082/12984. -/
theorem claim_C8 :
    calculateAmounts ⟨"20", "USD", "月払い"⟩ (JSNum.num 150)
        = (JSNum.num 3000, JSNum.num 36000) ∧
    calculateAmounts ⟨"12984", "JPY", "年払い"⟩ (JSNum.num 150)
        = (JSNum.num 1082, JSNum.num 12984) := by
  constructor
  · rw [show calculateAmounts ⟨"20", "USD", "月払い"⟩ (JSNum.num 150)
        = calculateMonthlyYearly (convertToJPY (parseFloat "20") "USD" (JSNum.num 150)) "月払い"
      from rfl, parseFloat_twenty]
    simp [convertToJPY, calculateMonthlyYearly, JSNum.mul, jsRound]
    norm_num
  · rw [show calculateAmounts ⟨"12984", "JPY", "年払い"⟩ (JSNum.num 150)
        = calculateMonthlyYearly (convertToJPY (parseFloat "12984") "JPY" (JSNum.num 150)) "年払い"
      from rfl, parseFloat_yearly_amount]
    simp [convertToJPY, calculateMonthlyYearly, JSNum.div, jsRound]
    norm_num

/-- Rounding an integer-valued rational is the identity. -/
theorem floor_intCast_add_half (z : ℤ) : ⌊(z : ℚ) + 1/2⌋ = z := by
  rw [add_comm, Int.floor_add_int]
  norm_num

/-- `Math.round` is the identity on integer-valued numbers. -/
theorem jsRound_intCast (z : ℤ) : jsRound (JSNum.num (z : ℚ)) = JSNum.num (z : ℚ) := by
  show JSNum.num ((⌊(z : ℚ) + 1/2⌋ : ℤ) : ℚ) = JSNum.num ((z : ℚ))
  rw [floor_intCast_add_half]

/-- Claim C2: for every positive `jpyAmount`, the cycle normalizer returns
round(jpyAmount)/round(jpyAmount·12) for the monthly cycle,
round(jpyAmount/12)/round(jpyAmount) for the yearly cycle — with
round-half-away-from-zero applied only at the point of output, the
intermediate division left exact — and treats every cadence other than the
yearly label (including `その他`) identically to the monthly cycle. -/
theorem claim_C2 (q : ℚ) (h : 0 < q) (cycle : String) (hcycle : cycle ≠ "年払い") :
    calculateMonthlyYearly (JSNum.num q) "月払い"
        = (JSNum.num (roundHalfAwayFromZero q), JSNum.num (roundHalfAwayFromZero (q * 12))) ∧
    calculateMonthlyYearly (JSNum.num q) "年払い"
        = (JSNum.num (roundHalfAwayFromZero (q / 12)), JSNum.num (roundHalfAwayFromZero q)) ∧
    calculateMonthlyYearly (JSNum.num q) cycle
        = (JSNum.num (roundHalfAwayFromZero q), JSNum.num (roundHalfAwayFromZero (q * 12))) := by
  have hq : 0 ≤ q := le_of_lt h
  have h12 : 0 ≤ q * 12 := by positivity
  have hd : 0 ≤ q / 12 := by positivity
  rw [roundHalfAwayFromZero_of_nonneg q hq, roundHalfAwayFromZero_of_nonneg _ h12,
    roundHalfAwayFromZero_of_nonneg _ hd]
  refine ⟨?_, ?_, ?_⟩
  · simp [calculateMonthlyYearly, JSNum.mul, jsRound]
  · simp [calculateMonthlyYearly, JSNum.div, jsRound]
  · by_cases hm : cycle = "月払い"
    · simp [calculateMonthlyYearly, hm, JSNum.mul, jsRound]
    · simp [calculateMonthlyYearly, hm, hcycle, JSNum.mul, jsRound]

/-- Witness for claim C2 at `jpyAmount = 3/2` and unrecognized cadence
`その他`. -/
theorem claim_C2_witness :
    (0 < (3/2 : ℚ)) ∧ ("その他" : String) ≠ "年払い" ∧
      (calculateMonthlyYearly (JSNum.num (3/2)) "月払い"
          = (JSNum.num (roundHalfAwayFromZero (3/2)),
             JSNum.num (roundHalfAwayFromZero ((3/2 : ℚ) * 12))) ∧
       calculateMonthlyYearly (JSNum.num (3/2)) "年払い"
          = (JSNum.num (roundHalfAwayFromZero ((3/2 : ℚ) / 12)),
             JSNum.num (roundHalfAwayFromZero (3/2))) ∧
       calculateMonthlyYearly (JSNum.num (3/2)) "その他"
          = (JSNum.num (roundHalfAwayFromZero (3/2)),
             JSNum.num (roundHalfAwayFromZero ((3/2 : ℚ) * 12)))) :=
  ⟨by norm_num, by decide, claim_C2 (3/2) (by norm_num) "その他" (by decide)⟩

/-- Claim C4 fails as stated: at the positive amount `jpyAmount = 1/10` the
yearly output is 1 while rounding the monthly output times 12 gives 0. -/
theorem claim_C4_counterexample :
    (0 < (1/10 : ℚ)) ∧
    (calculateMonthlyYearly (JSNum.num (1/10)) "月払い").2
      ≠ jsRound (((calculateMonthlyYearly (JSNum.num (1/10)) "月払い").1).mul (JSNum.num 12)) := by
  constructor
  · norm_num
  · simp only [calculateMonthlyYearly, String.reduceEq, reduceIte, JSNum.mul, jsRound]
    norm_num

/-- Claim C4, amended: for every positive integer `jpyAmount`, the yearly
output of the monthly cycle equals rounding the monthly output times 12. -/
theorem claim_C4 (z : ℤ) (h : 0 < z) :
    (calculateMonthlyYearly (JSNum.num (z : ℚ)) "月払い").2
      = jsRound (((calculateMonthlyYearly (JSNum.num (z : ℚ)) "月払い").1).mul (JSNum.num 12)) := by
  simp only [calculateMonthlyYearly, String.reduceEq, reduceIte, JSNum.mul, jsRound,
    floor_intCast_add_half]

/-- Witness for the amended claim C4 at `jpyAmount = 7`. -/
theorem claim_C4_witness :
    (0 < (7 : ℤ)) ∧
      (calculateMonthlyYearly (JSNum.num ((7 : ℤ) : ℚ)) "月払い").2
        = jsRound (((calculateMonthlyYearly (JSNum.num ((7 : ℤ) : ℚ)) "月払い").1).mul
            (JSNum.num 12)) :=
  ⟨by decide, claim_C4 7 (by decide)⟩

/-- Claim C5 fails as stated: at the positive amount `jpy = 11/2` the yearly
round trip gives monthly 1 while `round(jpy / 12)` is 0. -/
theorem claim_C5_counterexample :
    (0 < (11/2 : ℚ)) ∧
    (calculateMonthlyYearly ((calculateMonthlyYearly (JSNum.num (11/2)) "年払い").2) "年払い").1
      ≠ jsRound ((JSNum.num (11/2)).div (JSNum.num 12)) := by
  constructor
  · norm_num
  · simp only [calculateMonthlyYearly, String.reduceEq, reduceIte, JSNum.div, jsRound]
    norm_num

/-- Claim C5, amended: for every positive integer `jpy`, feeding the yearly
output of the yearly cycle back through the yearly cycle returns monthly
`round(jpy / 12)`. -/
theorem claim_C5 (z : ℤ) (h : 0 < z) :
    (calculateMonthlyYearly ((calculateMonthlyYearly (JSNum.num (z : ℚ)) "年払い").2) "年払い").1
      = jsRound ((JSNum.num (z : ℚ)).div (JSNum.num 12)) := by
  have inner : (calculateMonthlyYearly (JSNum.num (z : ℚ)) "年払い").2 = JSNum.num (z : ℚ) := by
    simp only [calculateMonthlyYearly, String.reduceEq, reduceIte]
    exact jsRound_intCast z
  rw [inner]
  simp only [calculateMonthlyYearly, String.reduceEq, reduceIte]

/-- Witness for the amended claim C5 at `jpy = 5`. -/
theorem claim_C5_witness :
    (0 < (5 : ℤ)) ∧
      (calculateMonthlyYearly ((calculateMonthlyYearly (JSNum.num ((5 : ℤ) : ℚ)) "年払い").2)
          "年払い").1
        = jsRound ((JSNum.num ((5 : ℤ) : ℚ)).div (JSNum.num 12)) :=
  ⟨by decide, claim_C5 5 (by decide)⟩

/-- Claim C1 fails as stated: `calculateAmounts` raises no `InvalidAmount`
error — on the unparseable amount `"abc"` it returns a `{NaN, NaN}` result,
and on the negative amount `"-5"` it computes `{-5, -60}` straight through. -/
theorem claim_C1_counterexample :
    calculateAmounts ⟨"abc", "JPY", "月払い"⟩ (JSNum.num 150) = (JSNum.nan, JSNum.nan) ∧
    calculateAmounts ⟨"-5", "JPY", "月払い"⟩ (JSNum.num 150)
      = (JSNum.num (-5), JSNum.num (-60)) := by
  constructor
  · rw [show calculateAmounts ⟨"abc", "JPY", "月払い"⟩ (JSNum.num 150)
        = calculateMonthlyYearly (convertToJPY (parseFloat "abc") "JPY" (JSNum.num 150)) "月払い"
      from rfl, parseFloat_abc]
    rfl
  · rw [show calculateAmounts ⟨"-5", "JPY", "月払い"⟩ (JSNum.num 150)
        = calculateMonthlyYearly (convertToJPY (parseFloat "-5") "JPY" (JSNum.num 150)) "月払い"
      from rfl, parseFloat_neg_five]
    simp [convertToJPY, calculateMonthlyYearly, JSNum.mul, jsRound]
    norm_num

/-- Claim C1, amended: `calculateAmounts` performs no validation and has no
error channel; whenever `amount_original` does not parse to a number it
silently returns NaN for both `amount_jpy_monthly` and `amount_jpy_yearly`,
for every currency, billing cycle and rate. -/
theorem claim_C1 (s currency cycle : String) (rate : ℚ) (h : parseFloat s = JSNum.nan) :
    calculateAmounts ⟨s, currency, cycle⟩ (JSNum.num rate) = (JSNum.nan, JSNum.nan) := by
  rw [show calculateAmounts ⟨s, currency, cycle⟩ (JSNum.num rate)
      = calculateMonthlyYearly (convertToJPY (parseFloat s) currency (JSNum.num rate)) cycle
    from rfl, h]
  have hconv : convertToJPY JSNum.nan currency (JSNum.num rate) = JSNum.nan := by
    unfold convertToJPY
    split_ifs <;> rfl
  rw [hconv]
  unfold calculateMonthlyYearly
  split_ifs <;> rfl

/-- Witness for the amended claim C1 at the input `"abc"`. -/
theorem claim_C1_witness :
    parseFloat "abc" = JSNum.nan ∧
      calculateAmounts ⟨"abc", "USD", "年払い"⟩ (JSNum.num 150) = (JSNum.nan, JSNum.nan) :=
  ⟨rfl, claim_C1 "abc" "USD" "年払い" 150 rfl⟩

/-- Claim C10: the aggregators guard every amount read with `|| 0`, so a
missing, null, NaN or zero (falsy) cached amount contributes 0 to the totals
at any position in the list, and the returned totals and every breakdown
value always carry an actual rational number, never NaN. -/
theorem claim_C10 (subs l1 l2 : List Subscription) (sub : Subscription)
    (hm : sub.amount_jpy_monthly.truthy = false)
    (hy : sub.amount_jpy_yearly.truthy = false) :
    (∃ m : ℚ, getTotalMonthly subs = JSNum.num m) ∧
    (∃ y : ℚ, getTotalYearly subs = JSNum.num y) ∧
    (∀ p ∈ getCategoryBreakdown subs, ∃ v : ℚ, p.2 = JSNum.num v) ∧
    getTotalMonthly (l1 ++ sub :: l2) = getTotalMonthly (l1 ++ l2) ∧
    getTotalYearly (l1 ++ sub :: l2) = getTotalYearly (l1 ++ l2) := by
  refine ⟨⟨_, getTotalMonthly_eq subs⟩, ⟨_, getTotalYearly_eq subs⟩, ?_, ?_, ?_⟩
  · intro p hp
    rw [getCategoryBreakdown_eq] at hp
    obtain ⟨p', _, rfl⟩ := List.mem_map.mp hp
    exact ⟨p'.2, rfl⟩
  · rw [getTotalMonthly_eq, getTotalMonthly_eq, JSNum.num.injEq]
    unfold totalMonthlyQ
    simp [fieldVal_of_falsy _ hm]
  · rw [getTotalYearly_eq, getTotalYearly_eq, JSNum.num.injEq]
    unfold totalYearlyQ
    simp [fieldVal_of_falsy _ hy]

/-- Witness for claim C10 on a concrete list holding a NaN-amount record. -/
theorem claim_C10_witness :
    sampleNaNRecord.amount_jpy_monthly.truthy = false ∧
    sampleNaNRecord.amount_jpy_yearly.truthy = false ∧
    ((∃ m : ℚ, getTotalMonthly [sampleNaNRecord, sampleRecord] = JSNum.num m) ∧
     (∃ y : ℚ, getTotalYearly [sampleNaNRecord, sampleRecord] = JSNum.num y) ∧
     (∀ p ∈ getCategoryBreakdown [sampleNaNRecord, sampleRecord], ∃ v : ℚ, p.2 = JSNum.num v) ∧
     getTotalMonthly ([sampleRecord] ++ sampleNaNRecord :: [sampleRecord])
        = getTotalMonthly ([sampleRecord] ++ [sampleRecord]) ∧
     getTotalYearly ([sampleRecord] ++ sampleNaNRecord :: [sampleRecord])
        = getTotalYearly ([sampleRecord] ++ [sampleRecord])) :=
  ⟨rfl, rfl,
    claim_C10 [sampleNaNRecord, sampleRecord] [sampleRecord] [sampleRecord] sampleNaNRecord
      rfl rfl⟩

end SubscMan
